import Mathlib

/-!
Verification of the AI-request routing and provider-abstraction layer of the
msft-integrations repository, against its natural-language specification.

The authoritative client code is `src/shared/utils/ai-client.js`
(`AIServiceClient`): `chatCompletion` (request construction lines 16-22,
response handling lines 24-46), `checkStatus` (lines 124-134) and
`switchProvider` (lines 139-154).  The dev-script command router lives in
`src/unnamed/part_006` and `src/unnamed/part_007` (the `commands` table and
the dispatch tail).  The gateway server itself ("LLM Gateway", a liteLLM
proxy) is not part of the repository source; where a claim depends on its
behaviour, that part is modelled from the specification and marked as such.

JavaScript conventions used by the embedding:
* a thrown exception is `Except.error` carrying a `JsError` (name, message),
  mirroring a JS `Error` object's `name` and `message` properties;
* `undefined`/absent option fields are `Option.none`;
* JS `x || d` on a string treats `""` as falsy, on a number treats `0` as
  falsy (NaN is not modelled; no call site can produce it);
* `JSON.stringify` keeps `null`-valued fields and would drop `undefined`
  ones, so the body-field list makes field presence explicit;
* a plain-object property read `obj[k]` also finds `Object.prototype`
  properties, which matters for the dev-script command lookup.
-/

namespace MsftIntegrations

/-- A JavaScript `Error` value: its `name` property (`"Error"` for a plain
`new Error(...)`, `"TypeError"` for a property access on `undefined` or a
rejected `fetch`, `"SyntaxError"` for a JSON parse failure) and `message`. -/
structure JsError where
  name : String
  message : String
deriving Repr, DecidableEq

/-- JSON values, used where the JS code passes parsed JSON through verbatim. -/
inductive JsonValue where
  | null : JsonValue
  | bool (b : Bool) : JsonValue
  | num (q : ℚ) : JsonValue
  | str (s : String) : JsonValue
  | arr (elems : List JsonValue) : JsonValue
  | obj (fields : List (String × JsonValue)) : JsonValue

/-- `Response.ok` of the fetch API: status in the inclusive range 200-299. -/
def okStatus (status : ℕ) : Bool :=
  200 ≤ status && status ≤ 299

/-- One chat message of the outgoing request body (`{role, content}`). -/
structure ChatMessage where
  role : String
  content : String
deriving Repr, DecidableEq

/-- The options object accepted by `AIServiceClient.chatCompletion`; every
field may be absent (`none`).  Temperature is ℚ: the claims about it concern
only which value is put in the request, not float rounding. -/
structure ChatOptions where
  model : Option String := none
  temperature : Option ℚ := none
  maxTokens : Option ℤ := none
  provider : Option String := none
deriving Repr, DecidableEq

/-- JS `s || d` for a string `s` that may be absent: `""` is falsy. -/
def jsOrStr (v : Option String) (d : String) : String :=
  match v with
  | none => d
  | some s => if s = "" then d else s

/-- JS `q || d` for a number that may be absent: `0` is falsy. -/
def jsOrNum (v : Option ℚ) (d : ℚ) : ℚ :=
  match v with
  | none => d
  | some q => if q = 0 then d else q

/-- JS `n || null` for an integer that may be absent: `0` is falsy, so both
absence and `0` become `null` (`none`). -/
def jsOrNullInt (v : Option ℤ) : Option ℤ :=
  match v with
  | none => none
  | some n => if n = 0 then none else some n

/-- JS `s || null` for a string that may be absent: `""` is falsy. -/
def jsOrNullStr (v : Option String) : Option String :=
  match v with
  | none => none
  | some s => if s = "" then none else some s

/-- The client's default model (`this.defaultModel`, ai-client.js line 9). -/
def defaultModel : String := "gpt-3.5-turbo"

/-- The `requestData` object built by `chatCompletion`
(ai-client.js lines 16-22).  `none` in `max_tokens` / `provider` is JSON
`null`. -/
structure RequestData where
  model : String
  messages : List ChatMessage
  temperature : ℚ
  max_tokens : Option ℤ
  provider : Option String
deriving Repr, DecidableEq

/-- ai-client.js lines 16-22:
`model: options.model || this.defaultModel`,
`messages: [{role: 'user', content: prompt}]`,
`temperature: options.temperature || 0.7`,
`max_tokens: options.maxTokens || null`,
`provider: options.provider || null`. -/
def buildRequestData (prompt : String) (options : ChatOptions) : RequestData :=
  { model := jsOrStr options.model defaultModel
    messages := [{ role := "user", content := prompt }]
    temperature := jsOrNum options.temperature (7/10)
    max_tokens := jsOrNullInt options.maxTokens
    provider := jsOrNullStr options.provider }

/-- The field list `JSON.stringify(requestData)` serializes, in source order.
Every field of the object literal is present; `null` values are kept by
`JSON.stringify` (only `undefined` fields would be dropped, and none are). -/
def requestBodyFields (r : RequestData) : List (String × JsonValue) :=
  [ ("model", .str r.model)
  , ("messages", .arr (r.messages.map fun m =>
      .obj [("role", .str m.role), ("content", .str m.content)]))
  , ("temperature", .num r.temperature)
  , ("max_tokens", match r.max_tokens with
      | none => .null
      | some n => .num (n : ℚ))
  , ("provider", match r.provider with
      | none => .null
      | some s => .str s) ]

/-- Token usage as carried in the gateway response JSON and passed through
verbatim by the client (`usage: data.usage`).  ℤ fields: the client performs
no sign check, so nothing rules out negative JSON numbers. -/
structure Usage where
  prompt_tokens : ℤ
  completion_tokens : ℤ
  total_tokens : ℤ
deriving Repr, DecidableEq

/-- The message inside `data.choices[i]`; the client reads only `.content`. -/
structure RespMessage where
  content : String
deriving Repr, DecidableEq

/-- One element of `data.choices`. -/
structure Choice where
  message : RespMessage
deriving Repr, DecidableEq

/-- The parsed 2xx response body the client reads
(`data.choices[0].message.content`, `data.model`, `data.usage`). -/
structure ChatResponseData where
  choices : List Choice
  model : String
  usage : Usage
deriving Repr, DecidableEq

/-- The value `chatCompletion` returns (ai-client.js lines 38-42). -/
structure ChatResult where
  content : String
  model : String
  usage : Usage
deriving Repr, DecidableEq

/-- Outcome of the `fetch` to `/v1/chat/completions` as the client observes
it: either a response (status, statusText, and the result of
`response.json()` — `Except.error` when the body is not valid JSON) or a
rejected fetch (network failure) carrying the error message. -/
inductive FetchOutcome where
  | response (status : ℕ) (statusText : String)
      (body : Except String ChatResponseData) : FetchOutcome
  | networkError (message : String) : FetchOutcome

/-- The body of `chatCompletion`'s `try` block (ai-client.js lines 25-42):
a rejected fetch throws a `TypeError`; a non-ok status throws
`new Error("HTTP <status>: <statusText>")` before the body is read; a JSON
parse failure throws a `SyntaxError`; an empty `choices` array makes
`data.choices[0].message` a property read on `undefined` (`TypeError`);
otherwise the result object is returned. -/
def tryChatCompletion (o : FetchOutcome) : Except JsError ChatResult :=
  match o with
  | .networkError m => .error { name := "TypeError", message := m }
  | .response status statusText body =>
    if okStatus status then
      match body with
      | .error parseMsg => .error { name := "SyntaxError", message := parseMsg }
      | .ok data =>
        match data.choices with
        | [] => .error { name := "TypeError", message := "Cannot read properties of undefined (reading 'message')" }
        | c :: _ =>
          .ok { content := c.message.content, model := data.model, usage := data.usage }
    else
      .error { name := "Error", message := "HTTP " ++ toString status ++ ": " ++ statusText }

/-- `chatCompletion`'s catch clause (ai-client.js lines 43-46): any error
from the try block is logged and rethrown as
`new Error("Failed to get AI response: " + error.message)`. -/
def handleChatResponse (o : FetchOutcome) : Except JsError ChatResult :=
  match tryChatCompletion o with
  | .ok r => .ok r
  | .error e =>
    .error { name := "Error", message := "Failed to get AI response: " ++ e.message }

/-- The whole of `AIServiceClient.chatCompletion` for one invocation: the
request object it sends and the result or thrown error, given the fetch
outcome. -/
def chatCompletion (prompt : String) (options : ChatOptions) (o : FetchOutcome) :
    RequestData × Except JsError ChatResult :=
  (buildRequestData prompt options, handleChatResponse o)

/-- Outcome of the `fetch` in `checkStatus`: a response whose body may or may
not parse as JSON, or a rejected fetch. -/
inductive StatusFetchOutcome where
  | response (status : ℕ) (body : Except String JsonValue) : StatusFetchOutcome
  | networkError (message : String) : StatusFetchOutcome

/-- `AIServiceClient.checkStatus` (ai-client.js lines 124-134): on an ok
response return the parsed JSON; on a non-ok response return
`{status: 'unavailable'}`; any exception (fetch rejection, JSON parse
failure) is caught and turned into `{status: 'error', message}`.
`Except.error` would mean an exception escaping the method; no branch
produces one. -/
def checkStatus (o : StatusFetchOutcome) : Except JsError JsonValue :=
  match o with
  | .response status body =>
    if okStatus status then
      match body with
      | .ok j => .ok j
      | .error m => .ok (.obj [("status", .str "error"), ("message", .str m)])
    else
      .ok (.obj [("status", .str "unavailable")])
  | .networkError m => .ok (.obj [("status", .str "error"), ("message", .str m)])

/-- Body of the `POST /v1/provider/switch` response.  The client never reads
it, but the spec's endpoint puts the real success flag here. -/
structure SwitchBody where
  success : Bool
deriving Repr, DecidableEq

/-- Outcome of the `fetch` in `switchProvider`. -/
inductive SwitchFetchOutcome where
  | response (status : ℕ) (body : SwitchBody) : SwitchFetchOutcome
  | networkError (message : String) : SwitchFetchOutcome
deriving Repr, DecidableEq

/-- `AIServiceClient.switchProvider` (ai-client.js lines 139-154): returns
`response.ok` — the body's `success` flag is never read — and returns
`false` from the catch clause when the fetch rejects.  `Except.error` would
mean an exception escaping the method; no branch produces one. -/
def switchProvider (o : SwitchFetchOutcome) : Except JsError Bool :=
  match o with
  | .response status _ => .ok (okStatus status)
  | .networkError _ => .ok false

/-! Gateway-side pieces.  The gateway server is not in the repository source
(the repo only starts an external liteLLM proxy), so these are modelled from
the specification, to be composed with, or compared against, the client code
above. -/

/-- Process-wide gateway state (spec §3): the set of configured provider
names and the current default-provider pointer. -/
structure GatewayState where
  configured : List String
  defaultProvider : String
deriving Repr, DecidableEq

/-- Modelled from the spec: `POST /v1/provider/switch` (spec §4.2 and §6) —
the gateway server is not in the repository.  "`switchDefaultProvider(name)`
atomically replaces process-wide default provider pointer if `name` is
configured; returns false (no-op, no error) if unknown", and the endpoint
answers "200 `{success: true}` or 200 `{success: false}` (unknown provider
is not an HTTP error by this design choice — callers must check the body)".
Returns the HTTP status, the body, and the state after the call. -/
def gatewaySwitchEndpoint (g : GatewayState) (name : String) :
    (ℕ × SwitchBody) × GatewayState :=
  if g.configured.contains name then
    ((200, { success := true }), { g with defaultProvider := name })
  else
    ((200, { success := false }), g)

/-- The client's `switchProvider` called against the spec's switch endpoint
on a reachable gateway: the boolean the client returns (or the exception it
throws) and the gateway state after the call. -/
def clientSwitch (g : GatewayState) (name : String) :
    Except JsError Bool × GatewayState :=
  let r := gatewaySwitchEndpoint g name
  (switchProvider (.response r.1.1 r.1.2), r.2)

/-- A client-facing chat request as the gateway receives it (spec §3). -/
structure ChatRequest where
  model : String
  messages : List ChatMessage
  temperature : ℚ
  maxTokens : Option ℤ
  providerOverride : Option String
deriving Repr, DecidableEq

/-- The gateway error taxonomy (spec §7). -/
inductive GatewayError where
  | validationError : GatewayError
  | unknownProvider : GatewayError
  | upstreamUnavailable : GatewayError
  | upstreamError (status : ℕ) (body : String) : GatewayError
  | malformedResponse : GatewayError
deriving Repr, DecidableEq

/-- The `type` names of the five taxonomy kinds (spec §7), as they appear in
client-visible error bodies `{error: {type, message}}`. -/
def gatewayErrorTypes : List String :=
  ["ValidationError", "UnknownProvider", "UpstreamUnavailable",
   "UpstreamError", "MalformedResponse"]

/-- Modelled from the spec: the Gateway Router `route` operation (spec §4.2)
— the gateway server is not in the repository.  Validation failure
short-circuits with `ValidationError` before any network call; an unknown
`providerOverride` yields `UnknownProvider` with no network call; otherwise
the resolved Provider Adapter (here a parameter, one outbound call per
invocation) is delegated to and its outcome passed through unchanged.  The
second component counts outbound network calls. -/
def route (g : GatewayState)
    (adapter : ChatRequest → Except GatewayError ChatResult)
    (req : ChatRequest) : Except GatewayError ChatResult × ℕ :=
  if req.messages = [] then
    (.error .validationError, 0)
  else
    match req.providerOverride with
    | some p =>
      if g.configured.contains p then (adapter req, 1)
      else (.error .unknownProvider, 0)
    | none => (adapter req, 1)

/-- Modelled from the spec: the 200-response serialization of a ChatResult
(spec §6) — the gateway server is not in the repository.  "200 response =
ChatResult JSON (`choices[0].message.content`, `model`, `usage`)". -/
def serializeChatResult (r : ChatResult) : ChatResponseData :=
  { choices := [{ message := { content := r.content } }]
    model := r.model
    usage := r.usage }

/-! The dev-script command router (`src/unnamed/part_006` and
`src/unnamed/part_007`): `const command = process.argv[2];
if (!command || !commands[command]) { console.error(...); showHelp();
process.exit(1); } try { commands[command].action(); } catch (error)
{ console.error(...); process.exit(1); }`. -/

/-- The own keys of the `commands` object literal in `src/unnamed/part_007`,
in source order. -/
def commandKeys007 : List String :=
  ["word-dev", "word-start", "llm-gateway", "local-llm",
   "ai-setup", "ai-status", "setup", "help"]

/-- The own keys of the `commands` object literal in `src/unnamed/part_006`,
in source order. -/
def commandKeys006 : List String :=
  ["word-webpack", "word-start", "llm-gateway", "local-llm",
   "ai-setup", "ai-status", "setup", "stop", "help"]

/-- Property names a plain JS object literal inherits from
`Object.prototype` (plus the `__proto__` accessor), all of which are truthy
values, so `commands[k]` is truthy for them even though they are not keys of
the command table. -/
def objectProtoProps : List String :=
  ["constructor", "hasOwnProperty", "isPrototypeOf", "propertyIsEnumerable",
   "toLocaleString", "toString", "valueOf", "__proto__",
   "__defineGetter__", "__defineSetter__", "__lookupGetter__",
   "__lookupSetter__"]

/-- JS truthiness of the property read `commands[command]`: true for an own
key (every table entry is an object, hence truthy) and for the inherited
`Object.prototype` properties (functions / the prototype object, truthy). -/
def commandLookupTruthy (ownKeys : List String) (k : String) : Bool :=
  ownKeys.contains k || objectProtoProps.contains k

/-- How one run of the dev script ends. -/
inductive DispatchOutcome where
  | helpExit1 : DispatchOutcome
  | invoked (key : String) : DispatchOutcome
  | typeErrorExit1 : DispatchOutcome
deriving Repr, DecidableEq

/-- The dispatch tail of the dev script, for a given command table.
`argv2 = none` models a missing argument, `some ""` an empty one (both
falsy, so `!command` takes the help path).  When `commands[command]` is
truthy but `command` is not an own key (an `Object.prototype` property
name), `commands[command].action` is `undefined` and calling it throws a
`TypeError`, which the surrounding `try` catches before calling
`process.exit(1)` — no help text, no command action. -/
def dispatch (ownKeys : List String) (argv2 : Option String) : DispatchOutcome :=
  match argv2 with
  | none => .helpExit1
  | some cmd =>
    if cmd = "" then .helpExit1
    else if commandLookupTruthy ownKeys cmd then
      if ownKeys.contains cmd then .invoked cmd else .typeErrorExit1
    else .helpExit1

/-! Theorems, one per claim of the specification review. -/

/-- C3: round-trip — serializing any ChatResult into the 200-response shape
of spec §6 (`choices[0].message.content`, `model`, `usage`) and parsing it
back with the client's response handler reconstructs an equal ChatResult:
content, model and all three usage fields preserved exactly, successful
results untransformed. -/
theorem chatResult_roundtrip (r : ChatResult) :
    handleChatResponse (.response 200 "OK" (.ok (serializeChatResult r))) = .ok r := by
  cases r
  rfl

/-- C7: `checkStatus` never throws for any probe outcome — it is total as a
value-returning operation: an ok response with parseable JSON returns the
parsed status JSON, a non-ok response returns `{status: 'unavailable'}`,
and a rejected fetch returns `{status: 'error', message}`. -/
theorem checkStatus_never_throws :
    (∀ o : StatusFetchOutcome, ∃ v, checkStatus o = .ok v) ∧
    (∀ (s : ℕ) (j : JsonValue), okStatus s = true →
      checkStatus (.response s (.ok j)) = .ok j) ∧
    (∀ (s : ℕ) (b : Except String JsonValue), okStatus s = false →
      checkStatus (.response s b) = .ok (.obj [("status", .str "unavailable")])) ∧
    (∀ m : String, checkStatus (.networkError m) =
      .ok (.obj [("status", .str "error"), ("message", .str m)])) := by
  refine ⟨?_, ?_, ?_, ?_⟩
  · intro o
    cases o with
    | response s body =>
      cases body with
      | ok j =>
        by_cases h : okStatus s = true
        · exact ⟨j, by simp [checkStatus, h]⟩
        · exact ⟨.obj [("status", .str "unavailable")], by simp [checkStatus, h]⟩
      | error m =>
        by_cases h : okStatus s = true
        · exact ⟨.obj [("status", .str "error"), ("message", .str m)],
            by simp [checkStatus, h]⟩
        · exact ⟨.obj [("status", .str "unavailable")], by simp [checkStatus, h]⟩
    | networkError m => exact ⟨_, rfl⟩
  · intro s j h
    simp [checkStatus, h]
  · intro s b h
    simp [checkStatus, h]
  · intro m
    rfl

/-- C7 witness: the three probe outcomes at concrete inputs. -/
theorem checkStatus_never_throws_witness :
    checkStatus (.response 200 (.ok (.obj [("status", .str "healthy")]))) =
      .ok (.obj [("status", .str "healthy")]) ∧
    checkStatus (.response 503 (.ok .null)) =
      .ok (.obj [("status", .str "unavailable")]) ∧
    checkStatus (.networkError "fetch failed") =
      .ok (.obj [("status", .str "error"), ("message", .str "fetch failed")]) :=
  ⟨checkStatus_never_throws.2.1 200 _ (by decide),
   checkStatus_never_throws.2.2.1 503 _ (by decide),
   checkStatus_never_throws.2.2.2 "fetch failed"⟩

/-- C9: omitted options are filled with fixed defaults in the outgoing
request body — model defaults to `"gpt-3.5-turbo"`, `max_tokens` and
`provider` are explicit JSON `null` — and for every options object the
serialized body carries exactly the five fields `model`, `messages`,
`temperature`, `max_tokens`, `provider`, never omitting any. -/
theorem requestBody_defaults (prompt : String) (opts : ChatOptions) :
    requestBodyFields (buildRequestData prompt {}) =
      [ ("model", .str "gpt-3.5-turbo")
      , ("messages", .arr [.obj [("role", .str "user"), ("content", .str prompt)]])
      , ("temperature", .num (7/10))
      , ("max_tokens", .null)
      , ("provider", .null) ] ∧
    (requestBodyFields (buildRequestData prompt opts)).map Prod.fst =
      ["model", "messages", "temperature", "max_tokens", "provider"] :=
  ⟨rfl, rfl⟩

/-- C10: `switchProvider` never throws for any network outcome — every
outcome yields a returned boolean, and a rejected fetch yields `false`. -/
theorem switchProvider_never_throws :
    (∀ o : SwitchFetchOutcome, ∃ b, switchProvider o = .ok b) ∧
    (∀ m : String, switchProvider (.networkError m) = .ok false) := by
  refine ⟨?_, fun m => rfl⟩
  intro o
  cases o with
  | response s b => exact ⟨_, rfl⟩
  | networkError m => exact ⟨_, rfl⟩

/-- C4: the claim that a caller-supplied temperature of `0` is sent as `0`
fails on the code — `options.temperature || 0.7` treats `0` as falsy, so a
request with temperature `0` is sent with `0.7` instead.  This contradicts
the spec's data model (temperature a float in `[0,2]`, default `0.7`):
the default was meant to apply only when the option is absent. -/
theorem temperature_zero_replaced_by_default :
    (buildRequestData "hi" { temperature := some 0 }).temperature = 7/10 ∧
    (7/10 : ℚ) ≠ 0 :=
  ⟨rfl, by norm_num⟩

/-- C2 counterexample: switching to an unconfigured provider through the
spec's switch endpoint (which answers 200 with `{success: false}`) makes
the client's `switchProvider` return `true`, not `false` — the claim that
the returned boolean is true iff the provider is configured is false. -/
theorem switchProvider_unknown_counterexample :
    (clientSwitch { configured := ["local"], defaultProvider := "local" }
      "nonexistent").1 = .ok true ∧
    ({ configured := ["local"], defaultProvider := "local" } :
      GatewayState).configured.contains "nonexistent" = false ∧
    Except.ok (ε := JsError) true ≠ Except.ok false :=
  ⟨rfl, by decide, fun h => Bool.noConfusion (Except.ok.inj h)⟩

/-- C2 amended: `switchProvider` returns `response.ok` — true whenever the
HTTP status is 2xx, regardless of the body's `success` flag, and `false`
only when the fetch itself rejects.  Composed with the spec's switch
endpoint, which answers 200 even for unknown providers, it returns `true`
for every provider name whenever the gateway is reachable; the gateway-side
default pointer is updated only for configured names and the configured set
is unchanged. -/
theorem switchProvider_returns_httpOk (g : GatewayState) (name : String)
    (s : ℕ) (b : SwitchBody) (m : String) :
    (clientSwitch g name).1 = .ok true ∧
    ((clientSwitch g name).2).defaultProvider =
      (if g.configured.contains name then name else g.defaultProvider) ∧
    ((clientSwitch g name).2).configured = g.configured ∧
    switchProvider (.response s b) = .ok (okStatus s) ∧
    switchProvider (.networkError m) = .ok false := by
  refine ⟨?_, ?_, ?_, rfl, rfl⟩ <;>
    by_cases h : name ∈ g.configured <;>
      simp [clientSwitch, gatewaySwitchEndpoint, switchProvider, okStatus, h]

/-- C6: a request with empty messages is rejected by the spec's `route`
with `ValidationError` and zero network calls, and every request the client
itself constructs satisfies the non-empty-messages precondition: the
message list is exactly one user-role message built from the prompt. -/
theorem route_empty_messages (g : GatewayState)
    (adapter : ChatRequest → Except GatewayError ChatResult)
    (req : ChatRequest) (h : req.messages = [])
    (prompt : String) (opts : ChatOptions) :
    route g adapter req = (.error .validationError, 0) ∧
    (buildRequestData prompt opts).messages =
      [{ role := "user", content := prompt }] :=
  ⟨by simp [route, h], rfl⟩

/-- C6 witness: a concrete empty-messages request and a concrete prompt. -/
theorem route_empty_messages_witness :
    route { configured := ["local"], defaultProvider := "local" }
      (fun _ => .error .upstreamUnavailable)
      { model := "gpt-3.5-turbo", messages := [], temperature := 7/10,
        maxTokens := none, providerOverride := none } =
      (.error .validationError, 0) ∧
    (buildRequestData "hi" {}).messages = [{ role := "user", content := "hi" }] :=
  route_empty_messages _ _ _ rfl "hi" {}

/-- A 200 response whose usage block carries a negative token count, passed
through verbatim by the client. -/
def negUsageOutcome : FetchOutcome :=
  .response 200 "OK" (.ok
    { choices := [{ message := { content := "hello" } }]
      model := "stub-model"
      usage := { prompt_tokens := -1, completion_tokens := 0, total_tokens := 0 } })

/-- C1 counterexample: on a 200 response whose usage holds a negative token
count, `chatCompletion` returns a result with a negative usage field and no
typed GatewayError — so the claim that every invocation yields either a
result with non-negative usage or a well-typed GatewayError is false. -/
theorem chatCompletion_usage_counterexample :
    ¬ ((∃ r, handleChatResponse negUsageOutcome = .ok r ∧
          0 ≤ r.usage.prompt_tokens ∧ 0 ≤ r.usage.completion_tokens ∧
          0 ≤ r.usage.total_tokens) ∨
       (∃ e, handleChatResponse negUsageOutcome = .error e ∧
          gatewayErrorTypes.contains e.name = true)) := by
  have hv : handleChatResponse negUsageOutcome =
      .ok { content := "hello", model := "stub-model"
            usage := { prompt_tokens := -1, completion_tokens := 0, total_tokens := 0 } } := rfl
  rintro (⟨r, hr, h1, h2, h3⟩ | ⟨e, he, ht⟩)
  · rw [hv] at hr
    injection hr with hr
    subst hr
    exact absurd h1 (by decide)
  · rw [hv] at he
    exact Except.noConfusion he

/-- C1 amended: every `chatCompletion` invocation either returns a result —
whose content, model and usage are taken verbatim from the response body,
with no sign guarantee on the usage fields — or throws a single wrapped
error named `"Error"` with message prefixed `"Failed to get AI response: "`;
no unwrapped fault escapes the method. -/
theorem chatCompletion_total_or_wrapped (o : FetchOutcome)
    (statusText : String) (c : Choice) (cs : List Choice)
    (mdl : String) (u : Usage) :
    ((∃ r, handleChatResponse o = .ok r) ∨
     (∃ s, handleChatResponse o =
        .error { name := "Error", message := "Failed to get AI response: " ++ s })) ∧
    handleChatResponse (.response 200 statusText
        (.ok { choices := c :: cs, model := mdl, usage := u })) =
      .ok { content := c.message.content, model := mdl, usage := u } := by
  constructor
  · cases h : tryChatCompletion o with
    | ok r => exact Or.inl ⟨r, by simp [handleChatResponse, h]⟩
    | error e => exact Or.inr ⟨e.message, by simp [handleChatResponse, h]⟩
  · rfl

/-- C5 counterexample: on a non-2xx response the error the client produces
is a plain `Error` (name `"Error"`), not one of the five taxonomy kinds —
so the claim that the chat-completion error is one of the five taxonomy
kinds rather than an untyped failure is false. -/
theorem chatCompletion_error_untyped_counterexample :
    (∃ e, handleChatResponse (.response 500 "Internal Server Error"
        (.error "ignored")) = .error e) ∧
    ¬ (∃ e, handleChatResponse (.response 500 "Internal Server Error"
        (.error "ignored")) = .error e ∧
        gatewayErrorTypes.contains e.name = true) := by
  have hv : handleChatResponse (.response 500 "Internal Server Error" (.error "ignored")) =
      .error { name := "Error"
               message := "Failed to get AI response: HTTP 500: Internal Server Error" } := rfl
  refine ⟨⟨_, hv⟩, ?_⟩
  rintro ⟨e, he, ht⟩
  rw [hv] at he
  injection he with he
  subst he
  exact absurd ht (by decide)

/-- C5 amended: for every non-2xx response, `chatCompletion` throws a
wrapped generic `Error` (not a typed GatewayError) whose message embeds the
upstream status code as text:
`"Failed to get AI response: HTTP <status>: <statusText>"`. -/
theorem chatCompletion_http_error_message (status : ℕ) (statusText : String)
    (body : Except String ChatResponseData) (h : okStatus status = false) :
    handleChatResponse (.response status statusText body) =
      .error { name := "Error"
               message := "Failed to get AI response: " ++
                 ("HTTP " ++ toString status ++ ": " ++ statusText) } := by
  simp [handleChatResponse, tryChatCompletion, h]

/-- C5 witness: the wrapped error at upstream status 500. -/
theorem chatCompletion_http_error_message_witness :
    handleChatResponse (.response 500 "Internal Server Error" (.error "ignored")) =
      .error { name := "Error"
               message := "Failed to get AI response: " ++
                 ("HTTP " ++ toString 500 ++ ": " ++ "Internal Server Error") } :=
  chatCompletion_http_error_message 500 "Internal Server Error" (.error "ignored")
    (by decide)

/-- C8 counterexample: `"toString"` is not a key of either command table,
yet `commands["toString"]` finds the inherited `Object.prototype` method,
so the guard does not take the help path: the script crashes on
`.action()` and exits 1 from the catch clause without printing help — the
claim that every non-key argument prints the help text is false. -/
theorem dispatch_proto_counterexample :
    dispatch commandKeys007 (some "toString") = .typeErrorExit1 ∧
    commandKeys007.contains "toString" = false ∧
    dispatch commandKeys006 (some "toString") = .typeErrorExit1 ∧
    commandKeys006.contains "toString" = false ∧
    DispatchOutcome.typeErrorExit1 ≠ DispatchOutcome.helpExit1 := by
  refine ⟨by decide, by decide, by decide, by decide, ?_⟩
  intro h
  exact DispatchOutcome.noConfusion h

/-- C8 amended: the dev-script router invokes exactly the looked-up action
for every argument that is an own key of the command table; a missing
argument, or one that is neither an own key nor an `Object.prototype`
property name, prints the help text and exits 1 with no action invoked;
an `Object.prototype` property name (e.g. `"toString"`) instead crashes the
dispatch with a `TypeError` and exits 1 from the catch without help. -/
theorem dispatch_lookup_table (a : String) :
    (commandKeys007.contains a = true →
      dispatch commandKeys007 (some a) = .invoked a) ∧
    (commandKeys007.contains a = false → objectProtoProps.contains a = false →
      dispatch commandKeys007 (some a) = .helpExit1) ∧
    dispatch commandKeys007 none = .helpExit1 ∧
    (commandKeys006.contains a = true →
      dispatch commandKeys006 (some a) = .invoked a) ∧
    (commandKeys006.contains a = false → objectProtoProps.contains a = false →
      dispatch commandKeys006 (some a) = .helpExit1) ∧
    dispatch commandKeys006 none = .helpExit1 := by
  refine ⟨?_, ?_, rfl, ?_, ?_, rfl⟩
  · intro h
    have ha : a ∈ commandKeys007 := by simpa using h
    fin_cases ha <;> rfl
  · intro h1 h2
    have h1m : a ∉ commandKeys007 := by simpa using h1
    have h2m : a ∉ objectProtoProps := by simpa using h2
    by_cases he : a = ""
    · simp [dispatch, he]
    · simp [dispatch, commandLookupTruthy, he, h1m, h2m]
  · intro h
    have ha : a ∈ commandKeys006 := by simpa using h
    fin_cases ha <;> rfl
  · intro h1 h2
    have h1m : a ∉ commandKeys006 := by simpa using h1
    have h2m : a ∉ objectProtoProps := by simpa using h2
    by_cases he : a = ""
    · simp [dispatch, he]
    · simp [dispatch, commandLookupTruthy, he, h1m, h2m]

/-- C8 witness: a known key is invoked, an unknown non-prototype argument
takes the help path, in both versions of the dev script. -/
theorem dispatch_lookup_table_witness :
    dispatch commandKeys007 (some "help") = .invoked "help" ∧
    dispatch commandKeys007 (some "bogus") = .helpExit1 ∧
    dispatch commandKeys006 (some "stop") = .invoked "stop" ∧
    dispatch commandKeys006 (some "bogus") = .helpExit1 :=
  ⟨(dispatch_lookup_table "help").1 (by decide),
   (dispatch_lookup_table "bogus").2.1 (by decide) (by decide),
   (dispatch_lookup_table "stop").2.2.2.1 (by decide),
   (dispatch_lookup_table "bogus").2.2.2.2.1 (by decide) (by decide)⟩

end MsftIntegrations
